import Mathlib

/-
Verification of the payment orchestration and fraud-risk subsystem of the
Dayliz_App backend (services/api/app): a shallow embedding of the Python
handlers and security utilities, followed by theorems settling the frozen
claims about them.

Conventions of the embedding:
- Currency amounts are rationals (the source uses Python floats; every
  comparison the claims touch is exact at the values involved).
- Time instants are natural numbers measured in minutes.
- External collaborators (database rows, the HMAC primitive, the risk and
  velocity helpers that are awaited database queries in the source) appear as
  explicit parameters; fallible steps are `Except`-valued, mirroring Python
  exceptions, and `try/except` blocks become matches on the `Except` value.
- String-typed statuses and reason strings are carried verbatim from the
  source.
-/

/-- An HTTP error response, as raised by `fastapi.HTTPException`. -/
structure HttpError where
  status_code : Nat
  detail : String
deriving Repr, DecidableEq

/-! ## Signature verification (`app/utils/payment_security.py`) -/

/-- Characters kept by `_sanitize_input`: the regex deletes everything outside
`[a-zA-Z0-9_\-|]` (written out as codepoint ranges). -/
def allowed_char (c : Char) : Bool :=
  (48 ≤ c.toNat && c.toNat ≤ 57) || (65 ≤ c.toNat && c.toNat ≤ 90) ||
    (97 ≤ c.toNat && c.toNat ≤ 122) || c = '_' || c = '-' || c = '|'

/-- `_sanitize_input`: strips every character outside the allowed set. -/
def sanitize_input (s : String) : String :=
  ⟨s.toList.filter allowed_char⟩

/-- A lowercase hexadecimal digit, the alphabet of `hashlib.sha256(...).hexdigest()`. -/
def hex_char (c : Char) : Bool :=
  (48 ≤ c.toNat && c.toNat ≤ 57) || (97 ≤ c.toNat && c.toNat ≤ 102)

/-- The shape of a SHA-256 `hexdigest()` output: 64 lowercase hex characters. -/
def is_hex_digest (s : String) : Bool :=
  s.length = 64 && s.toList.all hex_char

/-- `hmac.compare_digest` on two ASCII strings: a constant-time equality test;
as a mathematical function it is string equality. -/
def compare_digest (a b : String) : Bool :=
  a == b

/-- `PaymentSecurityManager.verify_razorpay_signature`.  The HMAC-SHA256
primitive keyed by the shared secret is abstracted as the parameter
`hmac_hex : String → String` from message to hex digest (the source calls
`hmac.new(secret, message, sha256).hexdigest()`); everything else — the
emptiness guard, sanitization of all three inputs, message construction
`"{order_id}|{payment_id}"`, and the digest comparison — is translated from
the source. -/
def verify_razorpay_signature (hmac_hex : String → String)
    (order_id payment_id signature : String) : Bool :=
  if order_id = "" || payment_id = "" || signature = "" then
    false
  else
    let oid := sanitize_input order_id
    let pid := sanitize_input payment_id
    let sig := sanitize_input signature
    let message := oid ++ "|" ++ pid
    let expected := hmac_hex message
    compare_digest expected sig

/-! ## COD validation (`app/utils/payment_security.py`) -/

/-- A delivery address as inspected by `_validate_indian_address`. -/
structure Address where
  street : String
  city : String
  state : String
  pincode : String
deriving Repr, DecidableEq

/-- An ASCII whitespace character, as stripped by Python `str.strip()`. -/
def is_space (c : Char) : Bool :=
  c = ' ' || c = '\t' || c = '\n' || c = '\r'

/-- Python `str.strip()`: drops leading and trailing whitespace. -/
def py_strip (s : String) : String :=
  ⟨(((s.toList.dropWhile is_space).reverse.dropWhile is_space).reverse)⟩

/-- The pincode regex `^\d{6}$` used by both `_validate_indian_address` and
`_is_serviceable_pincode`. -/
def is_six_digit_pincode (s : String) : Bool :=
  s.length = 6 && s.toList.all Char.isDigit

/-- `_validate_indian_address`: each of street, city, state, pincode is
nonempty after stripping whitespace, and the pincode is six digits. -/
def validate_indian_address (a : Address) : Bool :=
  !(py_strip a.street = "") && !(py_strip a.city = "") &&
    !(py_strip a.state = "") && !(py_strip a.pincode = "") &&
    is_six_digit_pincode a.pincode

/-- `_is_serviceable_pincode`: the placeholder accepts exactly the valid
six-digit pincodes. -/
def is_serviceable_pincode (s : String) : Bool :=
  is_six_digit_pincode s

/-- The order fields `validate_cod_order` reads. -/
structure CODOrder where
  total_amount : ℚ
  delivery_address : Address
deriving Repr, DecidableEq

/-- The dictionary `validate_cod_order` returns. -/
structure CODResult where
  eligible : Bool
  reason : String
  risk_score : Nat
deriving Repr, DecidableEq

/-- External inputs of `validate_cod_order`: the awaited database-backed
helpers `_calculate_user_risk_score` and `_get_recent_orders` (the latter
reduced to the length of the returned list, the only thing the caller uses).
They are `Except`-valued because in the source they are I/O steps inside the
`try` block and may raise. -/
structure CODEnv where
  riskScore : Except Unit Nat
  recentOrdersCount : Except Unit Nat
deriving Repr

/-- The `try`-block body of `PaymentSecurityManager.validate_cod_order`:
checks, in source order, the 50,000 COD cap, the Indian-address validation,
the risk score against 70, the trailing-hour order count against the velocity
threshold 5, and pincode serviceability; the first failing check returns its
specific reason.  The `risk_score` field is 0 until the risk helper has been
consulted, then carries its value, exactly as the mutated dictionary does. -/
def validate_cod_order_body (env : CODEnv) (order : CODOrder) :
    Except Unit CODResult := do
  let order_amount := order.total_amount
  if order_amount > 50000 then
    return ⟨false, "COD amount exceeds ₹50,000 limit as per RBI guidelines", 0⟩
  if !(validate_indian_address order.delivery_address) then
    return ⟨false, "Invalid or incomplete delivery address", 0⟩
  let user_risk_score ← env.riskScore
  if user_risk_score > 70 then
    return ⟨false, "COD not available due to account verification requirements",
      user_risk_score⟩
  let recent ← env.recentOrdersCount
  if recent ≥ 5 then
    return ⟨false, "Too many orders placed recently. Please try again later.",
      user_risk_score⟩
  if !(is_serviceable_pincode order.delivery_address.pincode) then
    return ⟨false, "COD not available in your area", user_risk_score⟩
  return ⟨true, "", user_risk_score⟩

/-- The fixed fail-closed dictionary returned by the `except` clause of
`validate_cod_order`. -/
def cod_fail_closed : CODResult :=
  ⟨false, "Unable to validate COD eligibility. Please try again.", 100⟩

/-- `PaymentSecurityManager.validate_cod_order`: the body wrapped in
`try/except`; any exception inside the body yields the fail-closed result
instead of propagating. -/
def validate_cod_order (env : CODEnv) (order : CODOrder) : CODResult :=
  match validate_cod_order_body env order with
  | .ok r => r
  | .error _ => cod_fail_closed

/-! ## Fraud risk engine (`app/utils/fraud_detection.py`) -/

/-- The `FraudRiskScore` dataclass. -/
structure FraudRiskScore where
  score : Nat
  risk_level : String
  reasons : List String
  recommendations : List String
deriving Repr, DecidableEq

/-- The partial result `{"score": ..., "reasons": [...]}` returned by each
risk dimension analyzer. -/
structure DimensionResult where
  score : Nat
  reasons : List String
deriving Repr, DecidableEq

/-- External inputs of `analyze_transaction_risk`: the seven dimension
analyzers, each of which awaits database/geolocation/clock helpers in the
source and may raise; each is therefore an `Except`-valued result. -/
structure FraudEnv where
  amount_risk : Except Unit DimensionResult
  velocity_risk : Except Unit DimensionResult
  geo_risk : Except Unit DimensionResult
  behavior_risk : Except Unit DimensionResult
  device_risk : Except Unit DimensionResult
  order_risk : Except Unit DimensionResult
  time_risk : Except Unit DimensionResult
deriving Repr

/-- The tier thresholds of `PaymentFraudDetector`: `low` below 30, `medium`
below 60, `high` below 80, otherwise `critical`. -/
def risk_level_of (score : Nat) : String :=
  if score < 30 then "low"
  else if score < 60 then "medium"
  else if score < 80 then "high"
  else "critical"

/-- The tier-dependent recommendation lists appended by
`analyze_transaction_risk`. -/
def recommendations_of (score : Nat) : List String :=
  if score < 30 then ["Transaction approved - low risk"]
  else if score < 60 then
    ["Additional verification recommended", "Monitor transaction closely"]
  else if score < 80 then
    ["Manual review required", "Consider additional authentication",
     "Limit transaction amount"]
  else
    ["Block transaction", "Require manual approval", "Investigate user account"]

/-- The `try`-block body of `PaymentFraudDetector.analyze_transaction_risk`:
sums the seven dimension scores (the order-pattern dimension only when order
items were supplied), concatenates their reasons in source order, caps the
total at 100, and derives the tier and recommendations. -/
def analyze_transaction_risk_body (env : FraudEnv) (has_order_items : Bool) :
    Except Unit FraudRiskScore := do
  let a ← env.amount_risk
  let v ← env.velocity_risk
  let g ← env.geo_risk
  let b ← env.behavior_risk
  let d ← env.device_risk
  let base_score := a.score + v.score + g.score + b.score + d.score
  let base_reasons := a.reasons ++ v.reasons ++ g.reasons ++ b.reasons ++ d.reasons
  let withOrder ←
    if has_order_items then do
      let o ← env.order_risk
      pure (base_score + o.score, base_reasons ++ o.reasons)
    else
      pure (base_score, base_reasons)
  let t ← env.time_risk
  let total := withOrder.1 + t.score
  let all_reasons := withOrder.2 ++ t.reasons
  let risk_score := min total 100
  return ⟨risk_score, risk_level_of risk_score, all_reasons,
    recommendations_of risk_score⟩

/-- The fixed score built by the `except` clause of
`analyze_transaction_risk`. -/
def fraud_fail_closed : FraudRiskScore :=
  ⟨90, "critical", ["Fraud analysis system error"], ["Manual review required"]⟩

/-- `PaymentFraudDetector.analyze_transaction_risk`: the body wrapped in
`try/except`; any exception inside the body yields the fail-closed critical
score instead of propagating to the caller. -/
def analyze_transaction_risk (env : FraudEnv) (has_order_items : Bool) :
    FraudRiskScore :=
  match analyze_transaction_risk_body env has_order_items with
  | .ok r => r
  | .error _ => fraud_fail_closed

/-! ## Association-list stores (database tables keyed by an id column) -/

/-- Update the value stored under key `k`, leaving other keys untouched
(`supabase_client.update_*` on an existing row). -/
def updateStore {α : Type} (st : List (String × α)) (k : String) (v : α) :
    List (String × α) :=
  st.map (fun p => if p.1 = k then (k, v) else p)

/-! ## Direct payment verification (`app/api/v1/payments.py`,
`verify_razorpay_payment`) -/

/-- The `PaymentResponse` schema returned by the verification and COD
endpoints. -/
structure PaymentResponse where
  success : Bool
  order_id : String
  payment_id : Option String
  status : String
  message : String
deriving Repr, DecidableEq

/-- The members of the `PaymentStatus` enumeration in
`app/schemas/payment.py` — the only strings a field typed `PaymentStatus`
accepts.  Notably, "paid" and "cod_pending" are not members. -/
def payment_status_values : List String :=
  ["pending", "payment_processing", "completed", "payment_failed",
   "payment_timeout", "refunded"]

/-- Constructing a `PaymentResponse` pydantic model: the `status` field is
typed `PaymentStatus`, so construction raises `ValidationError` unless the
string is one of the enumeration's members. -/
def mk_payment_response (success : Bool) (order_id : String)
    (payment_id : Option String) (status : String) (message : String) :
    Except Unit PaymentResponse :=
  if status ∈ payment_status_values then
    .ok ⟨success, order_id, payment_id, status, message⟩
  else
    .error ()

/-- The stored gateway-order row (`payment_orders` table) as read and written
by the verification endpoint. -/
structure PaymentOrderRec where
  status : String
  internal_order_id : String
  payment_id : Option String
deriving Repr, DecidableEq

/-- The slice of database state the verification endpoint touches, plus a
counter of `created → paid` transitions applied (each such transition is one
pair of `update_payment_order`/`update_order_payment_status` writes, the
financial state mutation of the endpoint). -/
structure VerifyState where
  payment_orders : List (String × PaymentOrderRec)
  order_payment_status : List (String × String)
  paid_transitions : Nat
deriving Repr, DecidableEq

/-- The endpoint `verify_razorpay_payment`: verifies the signature, loads the
gateway order, short-circuits on a stored status of `paid` (mutating
nothing), and otherwise transitions the gateway order and the main order to
`paid`.  Both the duplicate-suppression response and the original success
response are then built as `PaymentResponse(status="paid")` — but "paid" is
not a `PaymentStatus` member, so the construction raises `ValidationError`
inside the handler's `try`; the `except HTTPException` clause re-raises only
the 400/404 cases, and the blanket `except Exception` answers 500.  In the
non-duplicate branch the two database writes at lines 178–193 have already
committed when the construction at line 200 fails, so the 500 carries the
mutated state. -/
def verify_razorpay_payment (hmac_hex : String → String) (st : VerifyState)
    (razorpay_order_id razorpay_payment_id razorpay_signature : String) :
    Except HttpError PaymentResponse × VerifyState :=
  if verify_razorpay_signature hmac_hex razorpay_order_id razorpay_payment_id
      razorpay_signature = false then
    (.error ⟨400, "Payment verification failed. Invalid signature."⟩, st)
  else
    match st.payment_orders.lookup razorpay_order_id with
    | none => (.error ⟨404, "Order not found or unauthorized access."⟩, st)
    | some po =>
      if po.status = "paid" then
        match mk_payment_response true po.internal_order_id
            (some razorpay_payment_id) "paid" "Payment already processed" with
        | .ok r => (.ok r, st)
        | .error _ =>
          (.error ⟨500, "Payment verification failed. Please contact support."⟩,
           st)
      else
        let po2 : PaymentOrderRec :=
          ⟨"paid", po.internal_order_id, some razorpay_payment_id⟩
        let st2 : VerifyState :=
          ⟨updateStore st.payment_orders razorpay_order_id po2,
           updateStore st.order_payment_status po.internal_order_id "paid",
           st.paid_transitions + 1⟩
        match mk_payment_response true po.internal_order_id
            (some razorpay_payment_id) "paid" "Payment verified successfully" with
        | .ok r => (.ok r, st2)
        | .error _ =>
          (.error ⟨500, "Payment verification failed. Please contact support."⟩,
           st2)

/-! ## Gateway order creation paths (amount validation) -/

/-- A freshly created gateway-order row
(`payment_service._create_razorpay_order` in mock mode: a timestamped order
id and a 15-minute timeout window). -/
structure GatewayOrderRec where
  razorpay_order_id : String
  amount : ℚ
  timeout_at : Nat
deriving Repr, DecidableEq

/-- `PaymentService._create_razorpay_order` (the gateway-order creation used
by the UPI flow and the retry endpoint), reduced to its validation and the
row it creates: the amount guard rejects exactly when `amount <= 0` or
`amount > 200000`, and the timeout window is 15 minutes from now. -/
def service_create_razorpay_order (now : Nat) (amount : ℚ) :
    Except String GatewayOrderRec :=
  if amount ≤ 0 ∨ amount > 200000 then
    .error "Invalid payment amount"
  else
    .ok ⟨"order_mock_" ++ toString now, amount, now + 15⟩

/-- `PaymentSecurityManager.create_razorpay_order`, reduced to its validation
chain: currency must be INR, the amount must lie in [1, 200000], and — when a
user id is supplied — the user's daily transaction total plus this amount must
not exceed the 100,000 daily limit.  `daily_total` stands for the awaited
`_get_user_daily_transaction_total` result. -/
def security_create_razorpay_order (daily_total : ℚ) (amount : ℚ)
    (currency : String) (has_user : Bool) : Except String Unit :=
  if currency ≠ "INR" then
    .error "Only INR currency is supported in India"
  else if amount < 1 then
    .error "Minimum transaction amount is ₹1.00"
  else if amount > 200000 then
    .error "Amount exceeds maximum transaction limit"
  else if has_user ∧ daily_total + amount > 100000 then
    .error "Daily transaction limit exceeded"
  else
    .ok ()

/-- The endpoint `create_razorpay_order` of `app/api/v1/payments.py`: its own
two amount guards answer 400; it then delegates to
`PaymentSecurityManager.create_razorpay_order` with the caller's user id, and
any exception raised there is caught by the blanket handler and answered as a
500. -/
def create_razorpay_order_endpoint (daily_total : ℚ) (amount : ℚ) :
    Except HttpError Unit :=
  if amount < 1 then
    .error ⟨400, "Minimum transaction amount is ₹1.00 as per RBI guidelines"⟩
  else if amount > 200000 then
    .error ⟨400, "Transaction amount exceeds maximum limit. Please contact support."⟩
  else
    match security_create_razorpay_order daily_total amount "INR" true with
    | .error _ =>
        .error ⟨500, "Payment order creation failed. Please try again."⟩
    | .ok _ => .ok ()

/-! ## Payment retry (`app/api/v1/payments.py`, `retry_payment`) -/

/-- The order row fields the retry and status endpoints read and write. -/
structure OrderRec where
  payment_status : String
  payment_retry_count : Nat
  total_amount : ℚ
deriving Repr, DecidableEq

/-- The success payload of the retry endpoint: the fresh gateway order and the
incremented retry count. -/
structure RetryOutcome where
  retry_count : Nat
  gateway_order : GatewayOrderRec
deriving Repr, DecidableEq

/-- The endpoint `retry_payment`: 404 for a missing or non-owned order; 400
(state conflict) unless the stored payment status is `payment_failed` or
`payment_timeout`; 400 (retry exhausted) when the retry count has reached 3;
otherwise creates a fresh gateway order through
`service_create_razorpay_order` (whose failure the blanket handler turns into
a 500) and writes back the order with the retry count incremented by one and
payment status `payment_processing`.  The returned pair is (response payload,
updated order row). -/
def retry_payment (now : Nat) (order : Option OrderRec) :
    Except HttpError (RetryOutcome × OrderRec) :=
  match order with
  | none => .error ⟨404, "Order not found or unauthorized access."⟩
  | some o =>
    if ¬(o.payment_status = "payment_failed" ∨
         o.payment_status = "payment_timeout") then
      .error ⟨400, "Payment retry not allowed for current order status."⟩
    else if o.payment_retry_count ≥ 3 then
      .error ⟨400, "Maximum retry attempts exceeded."⟩
    else
      match service_create_razorpay_order now o.total_amount with
      | .error _ => .error ⟨500, "Payment retry failed. Please try again."⟩
      | .ok go =>
          .ok (⟨o.payment_retry_count + 1, go⟩,
               { o with payment_retry_count := o.payment_retry_count + 1,
                        payment_status := "payment_processing" })

/-! ## Webhook processing (`app/api/v1/payments.py` and
`app/utils/payment_security.py`) -/

/-- A webhook request body after the JSON-parsing step: either it fails to
parse (`json.loads` raises), or it yields an event type and the gateway order
id named in the event. -/
inductive WebhookPayload where
  | malformed : WebhookPayload
  | event (event_type : String) (gateway_order_id : String) : WebhookPayload
deriving Repr, DecidableEq

/-- The database slice visible to the webhook handlers. -/
structure WebhookState where
  payment_orders : List (String × PaymentOrderRec)
deriving Repr, DecidableEq

/-- `_handle_payment_captured`: an unimplemented stub (`pass`) — it mutates
nothing, for known and unknown gateway order ids alike. -/
def handle_payment_captured (st : WebhookState) (_gateway_order_id : String) :
    WebhookState :=
  st

/-- `_handle_payment_failed`: an unimplemented stub (`pass`). -/
def handle_payment_failed (st : WebhookState) (_gateway_order_id : String) :
    WebhookState :=
  st

/-- `PaymentSecurityManager.process_webhook`: parses the payload (re-raising
on a parse failure) and dispatches `payment.captured` / `payment.failed` to
their handlers; any other event type is logged and ignored. -/
def process_webhook (st : WebhookState) (p : WebhookPayload) :
    Except Unit WebhookState :=
  match p with
  | .malformed => .error ()
  | .event event_type gateway_order_id =>
    if event_type = "payment.captured" then
      .ok (handle_payment_captured st gateway_order_id)
    else if event_type = "payment.failed" then
      .ok (handle_payment_failed st gateway_order_id)
    else
      .ok st

/-- An HTTP response of the webhook endpoint: the status code and body text. -/
structure WebhookResponse where
  status_code : Nat
  body : String
deriving Repr, DecidableEq

/-- The endpoint `razorpay_webhook`: on an invalid signature it raises a 400
`HTTPException`, but the endpoint's blanket `except Exception` clause catches
that very exception (as it does any `process_webhook` failure) and answers
500 "Webhook processing failed"; a successfully processed payload is
acknowledged with 200 `{"status": "success"}`. -/
def razorpay_webhook (sig_valid : Bool) (st : WebhookState)
    (p : WebhookPayload) : WebhookResponse × WebhookState :=
  if ¬sig_valid then
    (⟨500, "Webhook processing failed"⟩, st)
  else
    match process_webhook st p with
    | .ok st2 => (⟨200, "success"⟩, st2)
    | .error _ => (⟨500, "Webhook processing failed"⟩, st)

/-! ## Payment status query (`app/api/v1/payments.py`, `get_payment_status`) -/

/-- The order row fields the status endpoint reads (each nullable in the
database, read through `.get(...)` with a default). -/
structure OrderRow where
  payment_status : Option String
  razorpay_order_id : Option String
  payment_id : Option String
  payment_timeout_at : Option Nat
  payment_retry_count : Option Nat
deriving Repr, DecidableEq

/-- The `PaymentStatusResponse` schema. -/
structure PaymentStatusResponse where
  order_id : String
  payment_status : String
  razorpay_order_id : Option String
  payment_id : Option String
  timeout_at : Option Nat
  retry_count : Nat
  can_retry : Bool
  failure_reason : Option String
deriving Repr, DecidableEq

/-- The endpoint `get_payment_status`: 404 for a missing or non-owned order.
When the order stores a gateway order id, the source calls
`supabase_client.get_payment_order(order["razorpay_order_id"])` with one
argument, but the method signature requires two
(`razorpay_order_id, user_id`), so the call raises `TypeError` and the
blanket handler answers 500.  Only an order without a gateway order id
reaches the response, which echoes the stored fields — the reported
`payment_status` is the stored one (defaulting to "pending", and validated
against the `PaymentStatus` enumeration by the response model), `can_retry`
is derived from the stored status and retry count, and `failure_reason` is
`None` since no gateway order was fetched.  The `_now` parameter is the wall
clock available to the handler; the source never consults it, so the result
never depends on it. -/
def get_payment_status (_now : Nat) (order_id : String)
    (order : Option OrderRow) : Except HttpError PaymentStatusResponse :=
  match order with
  | none => .error ⟨404, "Order not found or unauthorized access."⟩
  | some o =>
    if o.razorpay_order_id.isSome then
      .error ⟨500, "Failed to get payment status"⟩
    else
      let ps := o.payment_status.getD "pending"
      let rc := o.payment_retry_count.getD 0
      let can_retry :=
        (ps = "payment_failed" ∨ ps = "payment_timeout") ∧ rc < 3
      if ps ∈ payment_status_values then
        .ok ⟨order_id, ps, o.razorpay_order_id, o.payment_id,
          o.payment_timeout_at, rc, decide can_retry, none⟩
      else
        .error ⟨500, "Failed to get payment status"⟩

/-! ## Order creation with payment
(`app/services/payment_service.py`, `create_order_with_payment`) -/

/-- The request body `OrderWithPaymentCreate`, reduced to the fields the
claims touch. -/
structure OrderWithPaymentCreate where
  total_amount : ℚ
  payment_method : String
  delivery_address : Address
deriving Repr, DecidableEq

/-- The internal order row as persisted by `_create_internal_order` and then
updated by the COD branch. -/
structure InternalOrder where
  status : String
  payment_status : String
  total_amount : ℚ
deriving Repr, DecidableEq

/-- The success payload of `create_order_with_payment` (gateway details of
the UPI branch omitted; the claims only touch `payment_required` and the
message). -/
structure CreateOrderResult where
  order_id : String
  payment_required : Bool
  payment_method : String
  message : String
deriving Repr, DecidableEq

/-- `PaymentService.create_order_with_payment`: persists the internal order,
then branches on the payment method.  The `upi` branch delegates to
`service_create_razorpay_order`; the `cod` branch marks the order
`processing`/`pending` and confirms it — the source performs no COD
eligibility or fraud check on this path, which is why the result is
independent of the `cod_env` parameter (the inputs such a check would
consume).  Unsupported methods, and any exception from the branches, are
turned into a 500 by the blanket handler.  On success the returned pair is
(response payload, persisted order row). -/
def create_order_with_payment (now : Nat) (_cod_env : CODEnv)
    (order_data : OrderWithPaymentCreate) (new_order_id : String) :
    Except HttpError (CreateOrderResult × InternalOrder) :=
  if order_data.payment_method = "upi" then
    match service_create_razorpay_order now order_data.total_amount with
    | .error _ =>
        .error ⟨500, "Order creation failed. Please try again."⟩
    | .ok _go =>
        .ok (⟨new_order_id, true, "upi", ""⟩,
             ⟨"pending_payment", "payment_processing", order_data.total_amount⟩)
  else if order_data.payment_method = "cod" then
    .ok (⟨new_order_id, false, "cod", "Order confirmed. Payment on delivery."⟩,
         ⟨"processing", "pending", order_data.total_amount⟩)
  else
    .error ⟨500, "Order creation failed. Please try again."⟩

/-- The endpoint `process_cod_payment` of `app/api/v1/payments.py`: loads the
order, runs `validate_cod_order`, answers 400 carrying the specific reason on
ineligibility (re-raised intact by its `except HTTPException` clause), and
otherwise marks the order `cod_pending` and confirms — though the
confirmation response is built as `PaymentResponse(status="cod_pending")`,
not a `PaymentStatus` member, so on that branch response validation raises
and the blanket handler answers 500.  This endpoint — not
`create_order_with_payment` — is where the COD eligibility gate lives in the
source. -/
def process_cod_payment (env : CODEnv) (order_id : String)
    (order : Option CODOrder) : Except HttpError PaymentResponse :=
  match order with
  | none => .error ⟨404, "Order not found or unauthorized access."⟩
  | some o =>
    let v := validate_cod_order env o
    if ¬v.eligible then
      .error ⟨400, v.reason⟩
    else
      match mk_payment_response true order_id none "cod_pending"
          "Cash on Delivery order confirmed. Pay when delivered." with
      | .ok r => .ok r
      | .error _ =>
        .error ⟨500, "COD payment processing failed. Please try again."⟩

/-! ## Supporting lemmas -/

/-- Decidable equality of `Except` values (not derived automatically in this
library version), so that concrete runs can be settled by `decide`. -/
instance exceptDecEq {e a : Type} [DecidableEq e] [DecidableEq a] :
    DecidableEq (Except e a) := fun x y =>
  match x, y with
  | .ok u, .ok w =>
    if h : u = w then isTrue (by rw [h])
    else isFalse (fun s => by cases s; exact h rfl)
  | .error u, .error w =>
    if h : u = w then isTrue (by rw [h])
    else isFalse (fun s => by cases s; exact h rfl)
  | .ok _, .error _ => isFalse (fun s => Except.noConfusion s)
  | .error _, .ok _ => isFalse (fun s => Except.noConfusion s)

/-- Every hex digit survives sanitization. -/
theorem hex_char_allowed (c : Char) (h : hex_char c = true) :
    allowed_char c = true := by
  simp only [hex_char, allowed_char, Bool.or_eq_true, Bool.and_eq_true,
    decide_eq_true_eq] at h ⊢
  rcases h with h | h
  · tauto
  · have h2 : 97 ≤ c.toNat ∧ c.toNat ≤ 122 := ⟨h.1, by omega⟩
    tauto

/-- Sanitization is the identity on a list of allowed characters. -/
theorem filter_allowed_eq_self (l : List Char)
    (h : ∀ c ∈ l, allowed_char c = true) :
    l.filter allowed_char = l :=
  List.filter_eq_self.mpr h

/-! ## Claim C4 — fraud engine fails closed -/

/-- Claim C4: on every input where an internal step of the risk computation
raises, `analyze_transaction_risk` still returns normally, with the fixed
fail-closed `FraudRiskScore` whose level is `critical` and whose score 90
lies in the critical tier (≥ 80); the exception never propagates. -/
theorem c4_fraud_fail_closed (env : FraudEnv) (has_order_items : Bool)
    (h : analyze_transaction_risk_body env has_order_items = .error ()) :
    analyze_transaction_risk env has_order_items = fraud_fail_closed ∧
    fraud_fail_closed.risk_level = "critical" ∧
    80 ≤ fraud_fail_closed.score ∧
    risk_level_of fraud_fail_closed.score = "critical" := by
  refine ⟨?_, rfl, by decide, by decide⟩
  simp [analyze_transaction_risk, h]

/-- A fraud environment whose first dimension analyzer raises. -/
def fraud_env_err : FraudEnv :=
  ⟨.error (), .ok ⟨0, []⟩, .ok ⟨0, []⟩, .ok ⟨0, []⟩, .ok ⟨0, []⟩,
   .ok ⟨0, []⟩, .ok ⟨0, []⟩⟩

/-- Witness for C4 at a concrete raising environment. -/
theorem c4_witness :
    analyze_transaction_risk fraud_env_err false = fraud_fail_closed ∧
    fraud_fail_closed.risk_level = "critical" ∧
    80 ≤ fraud_fail_closed.score ∧
    risk_level_of fraud_fail_closed.score = "critical" :=
  c4_fraud_fail_closed fraud_env_err false rfl

/-! ## Claim C10 — COD validation fails closed -/

/-- Claim C10: on every input where an internal step of `validate_cod_order`
raises, the call still returns normally with the fail-closed result —
`eligible = false`, `risk_score = 100` and the generic reason string — and
never propagates the exception. -/
theorem c10_cod_fail_closed (env : CODEnv) (order : CODOrder)
    (h : validate_cod_order_body env order = .error ()) :
    validate_cod_order env order = cod_fail_closed ∧
    cod_fail_closed.eligible = false ∧
    cod_fail_closed.risk_score = 100 ∧
    cod_fail_closed.reason =
      "Unable to validate COD eligibility. Please try again." := by
  refine ⟨?_, rfl, rfl, rfl⟩
  simp [validate_cod_order, h]

/-- A well-formed Indian address used by the concrete scenarios. -/
def addr_valid : Address :=
  ⟨"12 MG Road", "Tura", "Meghalaya", "794001"⟩

/-- A 30,000-rupee COD order with a valid address. -/
def order30k : CODOrder :=
  ⟨30000, addr_valid⟩

/-- Witness for C10: a concrete order on which the risk-score step raises. -/
theorem c10_witness :
    validate_cod_order ⟨.error (), .ok 0⟩ order30k = cod_fail_closed ∧
    cod_fail_closed.eligible = false ∧
    cod_fail_closed.risk_score = 100 ∧
    cod_fail_closed.reason =
      "Unable to validate COD eligibility. Please try again." :=
  c10_cod_fail_closed ⟨.error (), .ok 0⟩ order30k (by decide)

/-! ## Claim C2 — COD eligibility -/

/-- A closed-form evaluation of `validate_cod_order` when the external
helpers return normally: the nested short-circuit of the five checks in
source order. -/
theorem validate_cod_order_ok_eq (risk recent : Nat) (order : CODOrder) :
    validate_cod_order ⟨.ok risk, .ok recent⟩ order =
      (if order.total_amount > 50000 then
        ⟨false, "COD amount exceeds ₹50,000 limit as per RBI guidelines", 0⟩
      else if !(validate_indian_address order.delivery_address) then
        ⟨false, "Invalid or incomplete delivery address", 0⟩
      else if risk > 70 then
        ⟨false, "COD not available due to account verification requirements",
          risk⟩
      else if recent ≥ 5 then
        ⟨false, "Too many orders placed recently. Please try again later.",
          risk⟩
      else if !(is_serviceable_pincode order.delivery_address.pincode) then
        ⟨false, "COD not available in your area", risk⟩
      else ⟨true, "", risk⟩ : CODResult) := by
  unfold validate_cod_order validate_cod_order_body
  split_ifs <;> try simp_all [bind, Except.bind, pure, Except.pure]
  all_goals split_ifs <;> first | rfl | linarith

/-- The eligibility condition exactly as claim C2 states it, for comparison
with the source: all five checks hold, with the risk score *strictly below*
70. -/
def cod_claim_eligible (risk recent : Nat) (order : CODOrder) : Bool :=
  decide (order.total_amount ≤ 50000) &&
    validate_indian_address order.delivery_address &&
    decide (risk < 70) && decide (recent < 5) &&
    is_serviceable_pincode order.delivery_address.pincode

/-- Claim C2 as stated is false: with a computed risk score of exactly 70 (a
valid address, a 30,000 amount, no recent orders) the source declares the
order *eligible* — the code rejects only scores strictly above 70 — while the
claim's condition `risk score < 70` declares it ineligible. -/
theorem c2_counterexample :
    (validate_cod_order ⟨.ok 70, .ok 0⟩ order30k).eligible = true ∧
    cod_claim_eligible 70 0 order30k = false := by
  constructor <;> decide

/-- Claim C2 (amended): `validate_cod_order` (with the risk and recent-order
helpers returning normally) is eligible exactly when the amount is ≤ 50,000,
the address passes Indian-format validation, the risk score is ≤ 70 (not
< 70 as claimed), the trailing-hour order count is < 5 and the pincode is
serviceable; the checks run in this order and the first failing one
short-circuits with its specific reason string. -/
theorem c2_cod_eligibility_amended (risk recent : Nat) (order : CODOrder) :
    ((validate_cod_order ⟨.ok risk, .ok recent⟩ order).eligible = true ↔
      (order.total_amount ≤ 50000 ∧
       validate_indian_address order.delivery_address = true ∧
       risk ≤ 70 ∧ recent < 5 ∧
       is_serviceable_pincode order.delivery_address.pincode = true)) ∧
    (order.total_amount > 50000 →
      validate_cod_order ⟨.ok risk, .ok recent⟩ order =
        ⟨false, "COD amount exceeds ₹50,000 limit as per RBI guidelines", 0⟩) ∧
    (order.total_amount ≤ 50000 →
      validate_indian_address order.delivery_address = false →
      validate_cod_order ⟨.ok risk, .ok recent⟩ order =
        ⟨false, "Invalid or incomplete delivery address", 0⟩) ∧
    (order.total_amount ≤ 50000 →
      validate_indian_address order.delivery_address = true → risk > 70 →
      validate_cod_order ⟨.ok risk, .ok recent⟩ order =
        ⟨false, "COD not available due to account verification requirements",
          risk⟩) ∧
    (order.total_amount ≤ 50000 →
      validate_indian_address order.delivery_address = true → risk ≤ 70 →
      recent ≥ 5 →
      validate_cod_order ⟨.ok risk, .ok recent⟩ order =
        ⟨false, "Too many orders placed recently. Please try again later.",
          risk⟩) ∧
    (order.total_amount ≤ 50000 →
      validate_indian_address order.delivery_address = true → risk ≤ 70 →
      recent < 5 →
      is_serviceable_pincode order.delivery_address.pincode = false →
      validate_cod_order ⟨.ok risk, .ok recent⟩ order =
        ⟨false, "COD not available in your area", risk⟩) ∧
    (order.total_amount ≤ 50000 →
      validate_indian_address order.delivery_address = true → risk ≤ 70 →
      recent < 5 →
      is_serviceable_pincode order.delivery_address.pincode = true →
      validate_cod_order ⟨.ok risk, .ok recent⟩ order = ⟨true, "", risk⟩) := by
  simp only [validate_cod_order_ok_eq]
  refine ⟨?_, ?_, ?_, ?_, ?_, ?_, ?_⟩
  · by_cases h1 : order.total_amount > 50000
    · simp only [if_pos h1]
      simp only [show (false : Bool) = true ↔ False by simp, false_iff]
      rintro ⟨hA, _⟩
      linarith
    · by_cases h2 : validate_indian_address order.delivery_address = true
      · by_cases h3 : risk > 70
        · simp only [if_neg h1, h2, Bool.not_true, if_pos h3]
          simp only [Bool.false_eq_true, if_false, false_iff]
          rintro ⟨_, _, hC, _⟩
          omega
        · by_cases h4 : recent ≥ 5
          · simp only [if_neg h1, h2, Bool.not_true, if_neg h3, if_pos h4]
            simp only [Bool.false_eq_true, if_false, false_iff]
            rintro ⟨_, _, _, hD, _⟩
            omega
          · by_cases h5 :
                is_serviceable_pincode order.delivery_address.pincode = true
            · simp only [if_neg h1, h2, Bool.not_true, if_neg h3, if_neg h4,
                h5, Bool.false_eq_true, if_false]
              simp only [true_iff]
              exact ⟨by linarith, trivial, by omega, by omega, trivial⟩
            · have h5f : is_serviceable_pincode
                  order.delivery_address.pincode = false :=
                Bool.eq_false_iff.mpr h5
              simp only [if_neg h1, h2, Bool.not_true, if_neg h3, if_neg h4,
                h5f, Bool.not_false, if_true, Bool.false_eq_true,
                Bool.false_eq_true, if_false, false_iff]
              rintro ⟨_, _, _, _, hE⟩
              exact hE
      · have h2f : validate_indian_address order.delivery_address = false :=
          Bool.eq_false_iff.mpr h2
        simp only [if_neg h1, h2f, Bool.not_false, if_true, false_iff]
        simp only [Bool.false_eq_true, false_iff]
        rintro ⟨_, hB, _⟩
        exact hB
  · intro h1
    simp [if_pos h1]
  · intro h1 h2
    simp [if_neg (not_lt.mpr h1), h2]
  · intro h1 h2 h3
    simp [if_neg (not_lt.mpr h1), h2, if_pos h3]
  · intro h1 h2 h3 h4
    simp [if_neg (not_lt.mpr h1), h2, if_neg (by omega : ¬70 < risk),
      if_pos h4]
  · intro h1 h2 h3 h4 h5
    simp [if_neg (not_lt.mpr h1), h2, if_neg (by omega : ¬70 < risk),
      if_neg (by omega : ¬5 ≤ recent), h5]
  · intro h1 h2 h3 h4 h5
    simp [if_neg (not_lt.mpr h1), h2, if_neg (by omega : ¬70 < risk),
      if_neg (by omega : ¬5 ≤ recent), h5]

/-- A 60,000-rupee COD order with a valid address. -/
def order60k : CODOrder :=
  ⟨60000, addr_valid⟩

/-- Witness for C2 at concrete inputs: 30,000 with clean helpers is eligible;
60,000 is rejected with the reason naming the 50,000 cap. -/
theorem c2_witness :
    (validate_cod_order ⟨.ok 0, .ok 0⟩ order30k).eligible = true ∧
    validate_cod_order ⟨.ok 0, .ok 0⟩ order60k =
      ⟨false, "COD amount exceeds ₹50,000 limit as per RBI guidelines", 0⟩ := by
  constructor
  · exact (c2_cod_eligibility_amended 0 0 order30k).1.mpr
      (by refine ⟨by decide, by decide, by omega, by omega, by decide⟩)
  · exact (c2_cod_eligibility_amended 0 0 order60k).2.1 (by decide)

/-! ## Claim C3 — signature correctness -/

/-- 64 lowercase `a` characters: a concrete value of the hex-digest shape. -/
def hex64 : String :=
  ⟨List.replicate 64 'a'⟩

/-- Claim C3 as stated is false: the source sanitizes the *signature* as well
before the constant-time comparison, so a signature that differs from the
valid hex digest by an appended disallowed character (here `!`) is still
accepted, refuting "returns false for every other signature". -/
theorem c3_counterexample :
    verify_razorpay_signature (fun _ => hex64) "o1" "p1" (hex64 ++ "!") = true ∧
    hex64 ++ "!" ≠ hex64 := by
  constructor <;> decide

/-- Sanitization is the identity on a string of allowed characters. -/
theorem sanitize_input_eq_self (s : String)
    (h : ∀ c ∈ s.toList, allowed_char c = true) : sanitize_input s = s := by
  unfold sanitize_input
  rw [filter_allowed_eq_self _ h]
  rfl

/-- Claim C3 (amended): verification succeeds exactly when all three inputs
are nonempty and the *sanitized* signature equals the hex HMAC of the
sanitized `"{order_id}|{payment_id}"`; in particular the exact digest is
accepted, and any single-character substitution inside a valid signature is
rejected (while, per the counterexample, appending characters the sanitizer
strips is not). -/
theorem c3_signature_amended (hmac_hex : String → String)
    (order_id payment_id signature : String) :
    (verify_razorpay_signature hmac_hex order_id payment_id signature = true ↔
      (order_id ≠ "" ∧ payment_id ≠ "" ∧ signature ≠ "" ∧
        hmac_hex (sanitize_input order_id ++ "|" ++ sanitize_input payment_id)
          = sanitize_input signature)) ∧
    (is_hex_digest (hmac_hex (sanitize_input order_id ++ "|" ++
        sanitize_input payment_id)) = true →
      order_id ≠ "" → payment_id ≠ "" →
      verify_razorpay_signature hmac_hex order_id payment_id
        (hmac_hex (sanitize_input order_id ++ "|" ++
          sanitize_input payment_id)) = true) ∧
    (∀ (l1 l2 : List Char) (a b : Char),
      is_hex_digest (hmac_hex (sanitize_input order_id ++ "|" ++
        sanitize_input payment_id)) = true →
      (hmac_hex (sanitize_input order_id ++ "|" ++
        sanitize_input payment_id)).toList = l1 ++ a :: l2 →
      b ≠ a →
      verify_razorpay_signature hmac_hex order_id payment_id
        ⟨l1 ++ b :: l2⟩ = false) := by
  refine ⟨?_, ?_, ?_⟩
  · by_cases h1 : order_id = "" <;> by_cases h2 : payment_id = "" <;>
      by_cases h3 : signature = "" <;>
      simp [verify_razorpay_signature, compare_digest, h1, h2, h3]
  · intro hhex hne1 hne2
    have hall : ∀ c ∈ (hmac_hex (sanitize_input order_id ++ "|" ++
        sanitize_input payment_id)).toList, allowed_char c = true := by
      intro c hc
      apply hex_char_allowed
      simp only [is_hex_digest, Bool.and_eq_true, List.all_eq_true,
        decide_eq_true_eq] at hhex
      exact hhex.2 c hc
    have hs := sanitize_input_eq_self _ hall
    have hne3 : hmac_hex (sanitize_input order_id ++ "|" ++
        sanitize_input payment_id) ≠ "" := by
      intro h0
      simp only [is_hex_digest, Bool.and_eq_true, decide_eq_true_eq] at hhex
      rw [h0] at hhex
      simp at hhex
    simp [verify_razorpay_signature, compare_digest, hne1, hne2, hne3, hs]
  · intro l1 l2 a b hhex hsplit hba
    by_cases h1 : order_id = ""
    · simp [verify_razorpay_signature, h1]
    by_cases h2 : payment_id = ""
    · simp [verify_razorpay_signature, h2]
    have hall : ∀ c ∈ l1 ++ a :: l2, allowed_char c = true := by
      intro c hc
      apply hex_char_allowed
      simp only [is_hex_digest, Bool.and_eq_true, List.all_eq_true,
        decide_eq_true_eq] at hhex
      exact hhex.2 c (by rw [hsplit]; exact hc)
    have hne3 : (⟨l1 ++ b :: l2⟩ : String) ≠ "" := by
      intro h0
      have h0d : l1 ++ b :: l2 = ([] : List Char) := congrArg String.data h0
      simp at h0d
    have hl1 : l1.filter allowed_char = l1 :=
      filter_allowed_eq_self _
        (fun c hc => hall c (List.mem_append_left _ hc))
    have hl2 : l2.filter allowed_char = l2 :=
      filter_allowed_eq_self _
        (fun c hc => hall c (List.mem_append_right _ (List.mem_cons_of_mem _ hc)))
    have hmain : hmac_hex (sanitize_input order_id ++ "|" ++
        sanitize_input payment_id) ≠ sanitize_input ⟨l1 ++ b :: l2⟩ := by
      intro heq
      have hsplit2 : (hmac_hex (sanitize_input order_id ++ "|" ++
          sanitize_input payment_id)).data = l1 ++ a :: l2 := hsplit
      have hdata : l1 ++ a :: l2 = (l1 ++ b :: l2).filter allowed_char :=
        hsplit2.symm.trans (congrArg String.data heq)
      by_cases hb : allowed_char b = true
      · rw [List.filter_append, hl1, List.filter_cons, if_pos hb, hl2]
          at hdata
        have hab : a = b :=
          (List.cons_eq_cons.mp (List.append_cancel_left hdata)).1
        exact hba hab.symm
      · have hbf : allowed_char b = false := Bool.eq_false_iff.mpr hb
        rw [List.filter_append, hl1, List.filter_cons, hbf] at hdata
        simp only [Bool.false_eq_true, if_false, hl2] at hdata
        have hlen := congrArg List.length hdata
        simp only [List.length_append, List.length_cons] at hlen
        omega
    simp [verify_razorpay_signature, compare_digest, h1, h2, hne3,
      beq_eq_false_iff_ne, hmain]

/-- Witness for C3 at a concrete hex digest: the exact digest is accepted. -/
theorem c3_witness :
    verify_razorpay_signature (fun _ => hex64) "o1" "p1" hex64 = true :=
  (c3_signature_amended (fun _ => hex64) "o1" "p1" hex64).2.1
    (by decide) (by decide) (by decide)

/-! ## Claim C1 — idempotent payment verification -/

/-- A constant digest function standing for HMAC with a fixed key, used by
the concrete verification scenarios. -/
def hmacA : String → String :=
  fun _ => "aaaa"

/-- A gateway-order store with one unpaid order awaiting verification. -/
def st0 : VerifyState :=
  ⟨[("ord1", ⟨"created", "int1", none⟩)], [("int1", "payment_processing")], 0⟩

/-- Claim C1 describes behavior the source cannot exhibit: both the original
success response and the duplicate-suppression response are built as
`PaymentResponse(status="paid")`, but "paid" is not a member of the
`PaymentStatus` enumeration the schema declares for that field, so response
validation raises and the endpoint answers the identical 500 on both calls —
no success payload ever leaves the handler.  The state-machine half of the
claim is intact: the first call commits the single `created → paid`
transition (its two database writes precede the failing response
construction), and the duplicate call mutates nothing — the two calls
produce the same (error) response and exactly one paid transition. -/
theorem c1_verification_response_bug :
    ("paid" ∈ payment_status_values) = False ∧
    (verify_razorpay_payment hmacA st0 "ord1" "pay1" "aaaa").1 =
      .error ⟨500, "Payment verification failed. Please contact support."⟩ ∧
    (verify_razorpay_payment hmacA
        (verify_razorpay_payment hmacA st0 "ord1" "pay1" "aaaa").2
        "ord1" "pay1" "aaaa").1 =
      .error ⟨500, "Payment verification failed. Please contact support."⟩ ∧
    (verify_razorpay_payment hmacA st0 "ord1" "pay1" "aaaa").2.payment_orders.lookup
        "ord1" = some ⟨"paid", "int1", some "pay1"⟩ ∧
    (verify_razorpay_payment hmacA st0 "ord1" "pay1" "aaaa").2.paid_transitions =
      st0.paid_transitions + 1 ∧
    (verify_razorpay_payment hmacA
        (verify_razorpay_payment hmacA st0 "ord1" "pay1" "aaaa").2
        "ord1" "pay1" "aaaa").2 =
      (verify_razorpay_payment hmacA st0 "ord1" "pay1" "aaaa").2 := by
  refine ⟨by decide, by decide, by decide, by decide, by decide, by decide⟩

/-! ## Claim C5 — payment retry -/

/-- Claim C5: a retry succeeds only when the stored payment status is
`payment_failed` or `payment_timeout` and the retry count is below 3; any
other status yields the state-conflict 400, an exhausted count (with an
eligible status) yields the retry-exhausted 400; each successful retry
returns a fresh gateway order whose timeout window is 15 minutes from now,
increments the retry count by exactly one, and sets the payment status to
`payment_processing`; with the count at 3 — as after three prior successful
retries — the attempt always fails. -/
theorem c5_retry_payment (now : Nat) (o : OrderRec) :
    (¬(o.payment_status = "payment_failed" ∨
        o.payment_status = "payment_timeout") →
      retry_payment now (some o) =
        .error ⟨400, "Payment retry not allowed for current order status."⟩) ∧
    ((o.payment_status = "payment_failed" ∨
        o.payment_status = "payment_timeout") →
      o.payment_retry_count ≥ 3 →
      retry_payment now (some o) =
        .error ⟨400, "Maximum retry attempts exceeded."⟩) ∧
    (∀ out o2, retry_payment now (some o) = .ok (out, o2) →
      (o.payment_status = "payment_failed" ∨
        o.payment_status = "payment_timeout") ∧
      o.payment_retry_count < 3 ∧
      out.retry_count = o.payment_retry_count + 1 ∧
      o2.payment_retry_count = o.payment_retry_count + 1 ∧
      o2.payment_status = "payment_processing" ∧
      o2.total_amount = o.total_amount ∧
      out.gateway_order.timeout_at = now + 15 ∧
      out.gateway_order.amount = o.total_amount) ∧
    (o.payment_retry_count = 3 →
      ∃ e, retry_payment now (some o) = .error e) := by
  refine ⟨?_, ?_, ?_, ?_⟩
  · intro h
    simp [retry_payment, h]
  · intro h1 h2
    simp [retry_payment, h1, h2]
  · intro out o2 hok
    by_cases h1 : (o.payment_status = "payment_failed" ∨
        o.payment_status = "payment_timeout")
    · by_cases h2 : o.payment_retry_count ≥ 3
      · simp [retry_payment, h1, h2] at hok
      · cases hsvc : service_create_razorpay_order now o.total_amount with
        | error e => simp [retry_payment, h1, h2, hsvc] at hok
        | ok go =>
          have hgo : go.timeout_at = now + 15 ∧ go.amount = o.total_amount := by
            unfold service_create_razorpay_order at hsvc
            split_ifs at hsvc
            all_goals injection hsvc with hgo2
            all_goals rw [← hgo2]
            all_goals exact ⟨rfl, rfl⟩
          simp only [retry_payment, if_neg (not_not_intro h1), if_neg h2,
            hsvc] at hok
          injection hok with hpair
          have hfst : (⟨o.payment_retry_count + 1, go⟩ : RetryOutcome) =
              out := congrArg Prod.fst hpair
          have hsnd : (⟨"payment_processing", o.payment_retry_count + 1,
              o.total_amount⟩ : OrderRec) = o2 := congrArg Prod.snd hpair
          refine ⟨h1, by omega, ?_, ?_, ?_, ?_, ?_, ?_⟩
          · rw [← hfst]
          · rw [← hsnd]
          · rw [← hsnd]
          · rw [← hsnd]
          · rw [← hfst]; exact hgo.1
          · rw [← hfst]; exact hgo.2
    · simp [retry_payment, h1] at hok
  · intro h3
    by_cases h1 : (o.payment_status = "payment_failed" ∨
        o.payment_status = "payment_timeout")
    · exact ⟨⟨400, "Maximum retry attempts exceeded."⟩,
        by simp [retry_payment, h1, h3]⟩
    · exact ⟨⟨400, "Payment retry not allowed for current order status."⟩,
        by simp [retry_payment, h1]⟩

/-- A failed-payment order that has exhausted its three retries. -/
def order_exhausted : OrderRec :=
  ⟨"payment_failed", 3, 100⟩

/-- A timed-out order with one prior retry. -/
def order_retryable : OrderRec :=
  ⟨"payment_timeout", 1, 100⟩

/-- Witness for C5: the exhausted order is refused with the retry-exhausted
error, and the retryable order's successful retry has the promised effects. -/
theorem c5_witness :
    retry_payment 0 (some order_exhausted) =
      .error ⟨400, "Maximum retry attempts exceeded."⟩ ∧
    ((order_retryable.payment_status = "payment_failed" ∨
        order_retryable.payment_status = "payment_timeout") ∧
      order_retryable.payment_retry_count < 3 ∧
      (⟨2, ⟨"order_mock_0", 100, 15⟩⟩ : RetryOutcome).retry_count =
        order_retryable.payment_retry_count + 1 ∧
      (⟨"payment_processing", 2, 100⟩ : OrderRec).payment_retry_count =
        order_retryable.payment_retry_count + 1 ∧
      (⟨"payment_processing", 2, 100⟩ : OrderRec).payment_status =
        "payment_processing" ∧
      (⟨"payment_processing", 2, 100⟩ : OrderRec).total_amount =
        order_retryable.total_amount ∧
      (⟨2, ⟨"order_mock_0", 100, 15⟩⟩ : RetryOutcome).gateway_order.timeout_at =
        0 + 15 ∧
      (⟨2, ⟨"order_mock_0", 100, 15⟩⟩ : RetryOutcome).gateway_order.amount =
        order_retryable.total_amount) :=
  ⟨(c5_retry_payment 0 order_exhausted).2.1 (Or.inl rfl) (by decide),
   (c5_retry_payment 0 order_retryable).2.2.1
     ⟨2, ⟨"order_mock_0", 100, 15⟩⟩ ⟨"payment_processing", 2, 100⟩
     (by decide)⟩

/-! ## Claim C6 — amount bounds -/

/-- Claim C6 as stated is false: on the service path (used by the UPI flow
and by every payment retry) the guard is `amount <= 0 or amount > 200000`,
so the amount 0.50 — below the claimed 1.00 floor — is accepted. -/
theorem c6_counterexample :
    (service_create_razorpay_order 0 (1/2)).isOk = true ∧ ((1:ℚ)/2 < 1) := by
  constructor
  · have hc : ¬((1:ℚ)/2 ≤ 0 ∨ (1:ℚ)/2 > 200000) := by
      rintro (h | h) <;> norm_num at h
    unfold service_create_razorpay_order
    rw [if_neg hc]
    rfl
  · norm_num

/-- Claim C6 (amended): the API endpoint and the security manager accept
exactly the amounts in [1, 200000] whose addition to the user's daily total
stays within the 100,000 daily cap (so even with zero prior spend, amounts
above 100,000 are rejected there); the service path accepts exactly the
amounts in (0, 200000], so the 1.00 floor does not govern it. -/
theorem c6_amount_bounds_amended (a dt : ℚ) (now : Nat) :
    ((create_razorpay_order_endpoint dt a).isOk = true ↔
      (1 ≤ a ∧ a ≤ 200000 ∧ dt + a ≤ 100000)) ∧
    ((security_create_razorpay_order dt a "INR" true).isOk = true ↔
      (1 ≤ a ∧ a ≤ 200000 ∧ dt + a ≤ 100000)) ∧
    ((service_create_razorpay_order now a).isOk = true ↔
      (0 < a ∧ a ≤ 200000)) := by
  have hsec : (security_create_razorpay_order dt a "INR" true).isOk = true ↔
      (1 ≤ a ∧ a ≤ 200000 ∧ dt + a ≤ 100000) := by
    unfold security_create_razorpay_order
    split_ifs with h1 h2 h3 h4
    · exact absurd rfl h1
    · simp only [Except.isOk, Except.toBool, Bool.false_eq_true, false_iff]
      rintro ⟨hA, _⟩
      linarith
    · simp only [Except.isOk, Except.toBool, Bool.false_eq_true, false_iff]
      rintro ⟨_, hB, _⟩
      linarith
    · simp only [Except.isOk, Except.toBool, Bool.false_eq_true, false_iff]
      rintro ⟨_, _, hC⟩
      linarith [h4.2]
    · simp only [Except.isOk, Except.toBool, true_iff]
      have hC : dt + a ≤ 100000 := by
        by_contra hc
        push_neg at hc
        exact h4 ⟨by simp, hc⟩
      exact ⟨by linarith, by linarith, hC⟩
  refine ⟨?_, hsec, ?_⟩
  · unfold create_razorpay_order_endpoint
    split_ifs with h1 h2
    · simp only [Except.isOk, Except.toBool, Bool.false_eq_true, false_iff]
      rintro ⟨hA, _⟩
      linarith
    · simp only [Except.isOk, Except.toBool, Bool.false_eq_true, false_iff]
      rintro ⟨_, hB, _⟩
      linarith
    · cases hs : security_create_razorpay_order dt a "INR" true with
      | error e =>
        simp only [Except.isOk, Except.toBool, Bool.false_eq_true, false_iff]
        intro hR
        have hx := hsec.mpr hR
        rw [hs] at hx
        simp [Except.isOk, Except.toBool] at hx
      | ok u =>
        simp only [Except.isOk, Except.toBool, true_iff]
        exact hsec.mp (by rw [hs]; rfl)
  · unfold service_create_razorpay_order
    split_ifs with h1
    · simp only [Except.isOk, Except.toBool, Bool.false_eq_true, false_iff]
      rintro ⟨hA, hB⟩
      rcases h1 with h | h <;> linarith
    · simp only [Except.isOk, Except.toBool, true_iff]
      push_neg at h1
      exact ⟨h1.1, h1.2⟩

/-- Witness for C6: the amount 100 is accepted on all three paths. -/
theorem c6_witness :
    (create_razorpay_order_endpoint 0 100).isOk = true ∧
    (security_create_razorpay_order 0 100 "INR" true).isOk = true ∧
    (service_create_razorpay_order 0 100).isOk = true :=
  ⟨(c6_amount_bounds_amended 100 0 0).1.mpr
      ⟨by decide, by decide, by rw [zero_add]; decide⟩,
   (c6_amount_bounds_amended 100 0 0).2.1.mpr
      ⟨by decide, by decide, by rw [zero_add]; decide⟩,
   (c6_amount_bounds_amended 100 0 0).2.2.mpr ⟨by decide, by decide⟩⟩

/-! ## Claim C7 — webhook acknowledgement -/

/-- Claim C7 as stated is false: with a valid signature, a payload that fails
JSON parsing makes `process_webhook` raise, and the endpoint's blanket
handler answers 500, not a success acknowledgement — so "returns 200 for
every payload" does not hold. -/
theorem c7_counterexample :
    (razorpay_webhook true ⟨[]⟩ .malformed).1 =
      ⟨500, "Webhook processing failed"⟩ ∧
    (500 : Nat) ≠ 200 := by
  exact ⟨rfl, by decide⟩

/-- Claim C7 (amended): once the signature is valid, every payload that
parses as JSON — whatever its event type and whatever gateway order id it
names, known or unknown — is acknowledged with 200 and mutates no state (the
event handlers are no-ops); a payload that fails JSON parsing is answered
with a 500 error instead. -/
theorem c7_webhook_ack_amended (st : WebhookState)
    (event_type gateway_order_id : String) :
    razorpay_webhook true st (.event event_type gateway_order_id) =
      (⟨200, "success"⟩, st) ∧
    razorpay_webhook true st .malformed =
      (⟨500, "Webhook processing failed"⟩, st) := by
  constructor
  · simp only [razorpay_webhook, process_webhook, handle_payment_captured,
      handle_payment_failed]
    rw [if_neg (by simp)]
    split_ifs <;> rfl
  · rfl

/-! ## Claim C8 — lazy timeout surfacing -/

/-- An order whose 15-minute window (timeout instant 100) has elapsed while
its stored payment status is still `payment_processing` and no gateway order
id is stored (as after a failed gateway-order creation), so the status
endpoint reaches its response instead of the `get_payment_order` TypeError. -/
def timed_out_order : OrderRow :=
  ⟨some "payment_processing", none, none, some 100, some 1⟩

/-- The same elapsed order with a stored gateway order id: for it the source
calls `get_payment_order` with one argument where two are required, so the
endpoint answers 500. -/
def timed_out_order_gw : OrderRow :=
  ⟨some "payment_processing", some "rzp1", none, some 100, some 1⟩

/-- Claim C8 describes behavior the source does not implement: at wall-clock
instant 200, past the stored timeout instant 100, the status endpoint never
compares the clock against `payment_timeout_at` — with no stored gateway
order id it reports the stale stored `payment_processing`, and with one it
answers 500 (the one-argument call of the two-parameter `get_payment_order`
raises `TypeError`); on no path is the promised `payment_timeout`
surfaced. -/
theorem c8_timeout_not_surfaced :
    get_payment_status 200 "o1" (some timed_out_order) =
      .ok ⟨"o1", "payment_processing", none, none, some 100, 1, false,
        none⟩ ∧
    get_payment_status 200 "o1" (some timed_out_order_gw) =
      .error ⟨500, "Failed to get payment status"⟩ ∧
    (100 : Nat) < 200 ∧
    ("payment_processing" : String) ≠ "payment_timeout" := by
  refine ⟨by decide, by decide, by decide, by decide⟩

/-! ## Claim C9 — COD gate at order creation -/

/-- An order-creation request for a 60,000 COD order — above the COD cap, so
any eligibility check would reject it. -/
def od9 : OrderWithPaymentCreate :=
  ⟨60000, "cod", addr_valid⟩

/-- Claim C9 describes behavior the source does not implement:
`create_order_with_payment` confirms the 60,000 COD order — for *every*
possible COD-eligibility input, since its COD branch never invokes the check
— while `validate_cod_order` on the same order is ineligible with the
50,000-cap reason, and the separate `process_cod_payment` endpoint (where the
gate actually lives) rejects it with exactly that reason. -/
theorem c9_cod_gate_missing :
    (∀ cod_env : CODEnv,
      create_order_with_payment 0 cod_env od9 "ord9" =
        .ok (⟨"ord9", false, "cod", "Order confirmed. Payment on delivery."⟩,
             ⟨"processing", "pending", 60000⟩)) ∧
    validate_cod_order ⟨.ok 0, .ok 0⟩ order60k =
      ⟨false, "COD amount exceeds ₹50,000 limit as per RBI guidelines", 0⟩ ∧
    process_cod_payment ⟨.ok 0, .ok 0⟩ "ord9" (some order60k) =
      .error ⟨400, "COD amount exceeds ₹50,000 limit as per RBI guidelines"⟩ := by
  refine ⟨fun cod_env => ?_, by decide, by decide⟩
  simp [create_order_with_payment, od9]
